import Mathlib

/-!
# The `sys/net` module of MemProcFS (`vmm/m_sys_net.c`)

A shallow embedding of the module that shows a netstat-like view of the
analysed system under `/sys/net/`, together with theorems about its listing,
read, timeline and registration entry points.

Conventions of the embedding:

* a C string is the list of its characters before the terminating NUL, so
  `s[0]` is non-zero exactly when the list is non-empty; one `Char` stands for
  one byte of rendered text;
* calls into other translation units (`VmmMap_GetNet`, `VmmProcessGet`,
  `Ob_DECREF`, the file readers) are recorded in an explicit event trace that
  is threaded through every function, so that what was called, acquired and
  released can be stated;
* the answers of the memory-analysis engine (is there a network map, which
  process has a given PID, how a timestamp prints) are the fields of `Env`.
-/

namespace MSysNet

/-! ## Data model -/

/-- Status codes used by the module. Their numeric values are declared in a
header outside `m_sys_net.c`; the module only passes them on and never
inspects them. -/
inductive NTSTATUS where
  | VMMDLL_STATUS_SUCCESS
  | VMMDLL_STATUS_END_OF_FILE
  | VMMDLL_STATUS_FILE_INVALID
deriving DecidableEq

/-- The fields of a `VMM_MAP_NETENTRY` that the module reads. -/
structure VMM_MAP_NETENTRY where
  dwPID : Nat
  ftTime : Nat
  vaObj : Nat
  wszText : List Char
deriving DecidableEq

/-- The network map object: `pMap` is the array of entries and `cMap` its
number of entries. -/
structure VMMOB_MAP_NET where
  pMap : List VMM_MAP_NETENTRY
deriving DecidableEq

/-- The record count of a network map. -/
def VMMOB_MAP_NET.cMap (m : VMMOB_MAP_NET) : Nat := m.pMap.length

/-- The fields of `pObProcess->pObPersistent` that the line renderers read. -/
structure VMM_PROCESS where
  uszNameLong : List Char
  uszPathKernel : List Char
deriving DecidableEq

/-- What the surrounding engine answers during one call. -/
structure Env where
  /-- the map `VmmMap_GetNet` hands out, `none` when it fails -/
  netMap : Option VMMOB_MAP_NET
  /-- the process `VmmProcessGet` finds for a PID, `none` for `NULL` -/
  process : Nat → Option VMM_PROCESS
  /-- the text `Util_FileTime2String` writes for a timestamp -/
  fileTime2String : Nat → List Char

/-- A reference-counted object the module can hold. -/
inductive ObRef where
  | netMap
  | process (dwPID : Nat)
deriving DecidableEq

/-- Calls that leave `m_sys_net.c`, in the order they are made. -/
inductive Event where
  /-- `VmmMap_GetNet(&pObNetMap)` and whether it succeeded -/
  | getNet (ok : Bool)
  /-- `VmmProcessGet(dwPID)` and whether it returned a process -/
  | processGet (dwPID : Nat) (ok : Bool)
  /-- `Ob_DECREF(p)`; `none` is a call on `NULL` -/
  | decref (o : Option ObRef)
  /-- `Util_VfsReadFile_FromPBYTE` on a file of `cbFile` bytes -/
  | readFile (cbFile : Nat)
  /-- `Util_VfsLineFixed_Read` with the given line length -/
  | lineFixedRead (cbLineLength : Nat)
deriving DecidableEq

/-- Whether an event takes a reference to `o`. -/
def Event.acquires (o : ObRef) : Event → Bool
  | Event.getNet ok => ok && decide (o = ObRef.netMap)
  | Event.processGet dwPID ok => ok && decide (o = ObRef.process dwPID)
  | _ => false

/-- Whether an event gives a reference to `o` back. -/
def Event.releases (o : ObRef) : Event → Bool
  | Event.decref (some r) => decide (o = r)
  | _ => false

/-- Whether an event is a call of `VmmMap_GetNet`, failed ones included. -/
def Event.isGetNet : Event → Bool
  | Event.getNet _ => true
  | _ => false

/-- Whether an event is a call of one of the two file readers. -/
def Event.isReader : Event → Bool
  | Event.readFile _ => true
  | Event.lineFixedRead _ => true
  | _ => false

/-- Number of references to `o` taken in a trace. -/
def acquired (o : ObRef) (t : List Event) : Nat := t.countP (Event.acquires o)

/-- Number of references to `o` given back in a trace. -/
def released (o : ObRef) (t : List Event) : Nat := t.countP (Event.releases o)

/-- Number of `VmmMap_GetNet` calls in a trace. -/
def getNetCalls (t : List Event) : Nat := t.countP Event.isGetNet

/-- Number of calls of the file readers in a trace. -/
def readerCalls (t : List Event) : Nat := t.countP Event.isReader

/-! ## Collaborators outside the file -/

/-- Modelled from the spec: `VmmMap_GetNet` is defined outside the translated
file. It is the spec's record source, "`acquire() -> (snapshot handle, ordered
Records, count)`", which can fail; a successful call hands out the map with a
reference that the caller has to give back. -/
def VmmMap_GetNet (env : Env) (t : List Event) : Option VMMOB_MAP_NET × List Event :=
  (env.netMap, t ++ [Event.getNet env.netMap.isSome])

/-- Modelled from the spec: `VmmProcessGet` is defined outside the translated
file. It is the spec's process resolver, "`resolve(ownerPID) -> optional
{displayName, diskPath}`", "a borrow-then-release operation": a process that is
found comes with a reference, and `NULL` is returned otherwise. -/
def VmmProcessGet (env : Env) (t : List Event) (dwPID : Nat) :
    Option VMM_PROCESS × List Event :=
  (env.process dwPID, t ++ [Event.processGet dwPID (env.process dwPID).isSome])

/-- Modelled from the spec: `Ob_DECREF` is defined outside the translated
file. It is the spec's "`release(handle)`" and gives one reference to the
object back; the renderers also call it on `NULL`, where there is no object to
give back. -/
def Ob_DECREF (o : Option ObRef) (t : List Event) : List Event :=
  t ++ [Event.decref o]

/-- Modelled from the spec: `VMMDLL_VfsList_AddFile` is defined outside the
translated file. A listing is the spec's "set of {name, size}"; the call adds
one file name with its size. -/
def VMMDLL_VfsList_AddFile (pFileList : List (String × Nat)) (wszName : String)
    (cb : Nat) : List (String × Nat) :=
  pFileList ++ [(wszName, cb)]

/-! ## Constants of the file -/

def szMSYSNET_README : String :=
  "Information about the sys net module                                         \n" ++
  "====================================                                         \n" ++
  "The sys/net module tries to enumerate and list active TCP connections in     \n" ++
  "Windows 7 and later (x64 only).  It currently does not support listening TCP \n" ++
  "ports or UDP ports. This functionality is planned for the future. Also, it\x27s \n" ++
  "not supporting 32-bit or Windows Vista/XP (future support less likely).      \n" ++
  "For more information please visit: https://github.com/ufrisk/MemProcFS/wiki  \n"

def MSYSNET_LINELENGTH : Nat := 128

def MSYSNET_LINELENGTH_VERBOSE : Nat := 278

def MSYSNET_LINEHEADER : String :=
  "   #    PID Proto  State        Src                           Dst                          Process"

def MSYSNET_LINEHEADER_VERBOSE : String :=
  MSYSNET_LINEHEADER ++
  "              Time                     Object Address    Process Path"

/-- C `strlen` on a string constant. -/
def strlen (s : String) : Nat := s.data.length

/-! ## Text formatting

The conversions of the C format strings used by the two line renderers. -/

/-- Pads on the left with `c` up to `width` characters; longer text is kept. -/
def padLeft (c : Char) (width : Nat) (s : List Char) : List Char :=
  List.replicate (width - s.length) c ++ s

/-- Pads on the right with spaces up to `width` characters. -/
def padRight (width : Nat) (s : List Char) : List Char :=
  s ++ List.replicate (width - s.length) ' '

/-- The conversion `%04x` of a `DWORD`. -/
def fmt_04x (v : Nat) : List Char := padLeft '0' 4 (Nat.toDigits 16 (v % 2 ^ 32))

/-- The conversion `%i` of a `DWORD`, which `printf` reads as a signed `int`. -/
def fmt_i (v : Nat) : List Char :=
  if v % 2 ^ 32 < 2 ^ 31 then Nat.toDigits 10 (v % 2 ^ 32)
  else '-' :: Nat.toDigits 10 (2 ^ 32 - v % 2 ^ 32)

/-- The conversion `%7i` of a `DWORD`. -/
def fmt_7i (v : Nat) : List Char := padLeft ' ' 7 (fmt_i v)

/-- The conversion `%016llx` of a `QWORD`. -/
def fmt_016llx (v : Nat) : List Char := padLeft '0' 16 (Nat.toDigits 16 (v % 2 ^ 64))

/-- The conversion `%-20S` of a string. -/
def fmt_m20S (s : List Char) : List Char := padRight 20 s

/-- Modelled from the spec: `Util_snwprintf_u8ln` lives in `util.c`, which is
not part of the translated file. The spec says of a rendered line: "Output is
padded with spaces and truncated so the result is exactly `lineWidth` bytes;
truncation policy: rightmost content is dropped first". The argument `text` is
the expansion of the format string. -/
def Util_snwprintf_u8ln (cbLineLength : Nat) (text : List Char) : List Char :=
  (text ++ List.replicate cbLineLength ' ').take cbLineLength

/-- Modelled from the spec: the macro `UTIL_VFSLINEFIXED_LINECOUNT` is defined
in `util.h`, which is not part of the translated file. The spec gives the size
of a table file as "`(cMap + 1) * lineWidth` (the `+1` accounts for the header
line)", so the line count of `c` records is `c + 1`. -/
def UTIL_VFSLINEFIXED_LINECOUNT (c : Nat) : Nat := c + 1

/-! ## Line renderers -/

/-- A line renderer as passed to `Util_VfsLineFixed_Read`: from the line length,
the record index and the record it produces the line written to `szu8`. -/
abbrev LineCallback :=
  Env → List Event → Nat → Nat → VMM_MAP_NETENTRY → List Char × List Event

/-- The text `MSysNet_ReadLine_Callback` formats with `L"%04x%7i %s %S"`. -/
def MSysNet_ReadLine_Text (ie : Nat) (pe : VMM_MAP_NETENTRY)
    (pObProcess : Option VMM_PROCESS) : List Char :=
  fmt_04x ie ++ fmt_7i pe.dwPID ++ [' '] ++ pe.wszText ++ [' '] ++
    (match pObProcess with
     | some p => p.uszNameLong
     | none => [])

def MSysNet_ReadLine_Callback : LineCallback := fun env t cbLineLength ie pe =>
  let r := VmmProcessGet env t pe.dwPID
  let szu8 := Util_snwprintf_u8ln cbLineLength (MSysNet_ReadLine_Text ie pe r.1)
  (szu8, Ob_DECREF (r.1.map fun _ => ObRef.process pe.dwPID) r.2)

/-- The text `MSysNet_ReadLineVerbose_Callback` formats with
`L"%04x%7i %s %-20S %S  %016llx  %S"`. -/
def MSysNet_ReadLineVerbose_Text (ie : Nat) (pe : VMM_MAP_NETENTRY)
    (pObProcess : Option VMM_PROCESS) (szTime : List Char) : List Char :=
  fmt_04x ie ++ fmt_7i pe.dwPID ++ [' '] ++ pe.wszText ++ [' '] ++
    fmt_m20S (match pObProcess with
              | some p => p.uszNameLong
              | none => []) ++
    [' '] ++ szTime ++ [' ', ' '] ++ fmt_016llx pe.vaObj ++ [' ', ' '] ++
    (match pObProcess with
     | some p => p.uszPathKernel
     | none => [])

def MSysNet_ReadLineVerbose_Callback : LineCallback := fun env t cbLineLength ie pe =>
  let r := VmmProcessGet env t pe.dwPID
  let szTime := env.fileTime2String pe.ftTime
  let szu8 := Util_snwprintf_u8ln cbLineLength (MSysNet_ReadLineVerbose_Text ie pe r.1 szTime)
  (szu8, Ob_DECREF (r.1.map fun _ => ObRef.process pe.dwPID) r.2)

/-! ## File readers -/

/-- What a read hands back: the status, the bytes written to `pb`, and the
value stored in `*pcbRead` (`none` when it is left untouched). -/
structure ReadResult where
  nt : NTSTATUS
  pb : List Char
  pcbRead : Option Nat
deriving DecidableEq

/-- Modelled from the spec: `Util_VfsReadFile_FromPBYTE` lives in `util.c`,
which is not part of the translated file. It serves a byte range of a file held
in memory; following the spec's read contract, the range is clamped to the file
and an offset at or past the end "returns zero bytes with no error
(end-of-file semantics, not a failure)". -/
def Util_VfsReadFile_FromPBYTE (pbFile : List Char) (cbFile cb cbOffset : Nat)
    (t : List Event) : ReadResult × List Event :=
  if cbFile ≤ cbOffset then
    (⟨NTSTATUS.VMMDLL_STATUS_END_OF_FILE, [], some 0⟩, t ++ [Event.readFile cbFile])
  else
    (⟨NTSTATUS.VMMDLL_STATUS_SUCCESS,
      (pbFile.drop cbOffset).take (min cb (cbFile - cbOffset)),
      some (min cb (cbFile - cbOffset))⟩,
     t ++ [Event.readFile cbFile])

/-- Modelled from the spec: the line loop of `Util_VfsLineFixed_Read`. It
"renders each needed line in ascending order (header only if `firstLine == 0`,
otherwise records `firstLine-1 .. lastLine-1`)" and concatenates them: `c`
lines starting with line `iLine`. -/
def Util_VfsLineFixed_RenderLines (pfnCallback : LineCallback) (env : Env)
    (cbLineLength : Nat) (wszHeader : String) (pMap : List VMM_MAP_NETENTRY) :
    Nat → Nat → List Event → List Char × List Event
  | 0, _, t => ([], t)
  | c + 1, iLine, t =>
    if iLine = 0 then
      let r := Util_VfsLineFixed_RenderLines pfnCallback env cbLineLength wszHeader pMap c 1 t
      (Util_snwprintf_u8ln cbLineLength wszHeader.data ++ r.1, r.2)
    else
      match pMap[iLine - 1]? with
      | none => ([], t)
      | some pe =>
        let l := pfnCallback env t cbLineLength (iLine - 1) pe
        let r := Util_VfsLineFixed_RenderLines pfnCallback env cbLineLength wszHeader pMap
          c (iLine + 1) l.2
        (l.1 ++ r.1, r.2)

/-- Modelled from the spec: `Util_VfsLineFixed_Read` lives in `util.c`, which
is not part of the translated file. Following the spec's paging engine, it
clamps the request to the file of `(cMap + 1) * lineWidth` bytes, returns zero
bytes at or past the end, computes the first line `offset / lineWidth`, the
shift `offset % lineWidth` and the number of lines that cover the request,
renders those lines only, and cuts the requested range out of them. -/
def Util_VfsLineFixed_Read (pfnCallback : LineCallback) (env : Env)
    (cbLineLength : Nat) (wszHeader : String) (pMap : List VMM_MAP_NETENTRY)
    (cMap cb cbOffset : Nat) (t : List Event) : ReadResult × List Event :=
  if UTIL_VFSLINEFIXED_LINECOUNT cMap * cbLineLength ≤ cbOffset then
    (⟨NTSTATUS.VMMDLL_STATUS_END_OF_FILE, [], some 0⟩,
     t ++ [Event.lineFixedRead cbLineLength])
  else
    let cbRead := min cb (UTIL_VFSLINEFIXED_LINECOUNT cMap * cbLineLength - cbOffset)
    let iFirst := cbOffset / cbLineLength
    let oFirst := cbOffset % cbLineLength
    let cLines := (oFirst + cbRead + cbLineLength - 1) / cbLineLength
    let r := Util_VfsLineFixed_RenderLines pfnCallback env cbLineLength wszHeader pMap
      cLines iFirst (t ++ [Event.lineFixedRead cbLineLength])
    (⟨NTSTATUS.VMMDLL_STATUS_SUCCESS, (r.1.drop oFirst).take cbRead, some cbRead⟩, r.2)

/-! ## Entry points of the module -/

def MSysNet_Read (env : Env) (t : List Event) (wszPath : String) (cb cbOffset : Nat) :
    ReadResult × List Event :=
  let nt : ReadResult := ⟨NTSTATUS.VMMDLL_STATUS_FILE_INVALID, [], none⟩
  if wszPath = "readme.txt" then
    Util_VfsReadFile_FromPBYTE szMSYSNET_README.data (strlen szMSYSNET_README) cb cbOffset t
  else
    match VmmMap_GetNet env t with
    | (some pObNetMap, t1) =>
      let r1 :=
        if wszPath = "netstat.txt" then
          Util_VfsLineFixed_Read MSysNet_ReadLine_Callback env MSYSNET_LINELENGTH
            MSYSNET_LINEHEADER pObNetMap.pMap pObNetMap.cMap cb cbOffset t1
        else (nt, t1)
      let r2 :=
        if wszPath = "netstat-v.txt" then
          Util_VfsLineFixed_Read MSysNet_ReadLineVerbose_Callback env
            MSYSNET_LINELENGTH_VERBOSE MSYSNET_LINEHEADER_VERBOSE pObNetMap.pMap
            pObNetMap.cMap cb cbOffset r1.2
        else r1
      (r2.1, Ob_DECREF (some ObRef.netMap) r2.2)
    | (none, t1) => (nt, t1)

/-- What a listing hands back: the `BOOL` result, the file list and the trace. -/
structure ListResult where
  ret : Bool
  pFileList : List (String × Nat)
  trace : List Event
deriving DecidableEq

def MSysNet_List (env : Env) (t : List Event) (wszPath : String)
    (pFileList : List (String × Nat)) : ListResult :=
  if wszPath ≠ "" then ⟨false, pFileList, t⟩
  else
    let l0 := VMMDLL_VfsList_AddFile pFileList "readme.txt" (strlen szMSYSNET_README)
    match VmmMap_GetNet env t with
    | (some pObNetMap, t1) =>
      let l1 := VMMDLL_VfsList_AddFile l0 "netstat.txt"
        (UTIL_VFSLINEFIXED_LINECOUNT pObNetMap.cMap * MSYSNET_LINELENGTH % 2 ^ 64)
      let l2 := VMMDLL_VfsList_AddFile l1 "netstat-v.txt"
        (UTIL_VFSLINEFIXED_LINECOUNT pObNetMap.cMap * MSYSNET_LINELENGTH_VERBOSE % 2 ^ 64)
      ⟨true, l2, Ob_DECREF (some ObRef.netMap) t1⟩
    | (none, t1) => ⟨true, l0, t1⟩

/-- One call `pfnAddEntry(hTimeline, ft, dwAction, dwPID, qwValue, wszText)`. -/
structure TimelineEntry where
  ft : Nat
  dwAction : Nat
  dwPID : Nat
  qwValue : Nat
  wszText : List Char
deriving DecidableEq

/-- The `for` loop of `MSysNet_Timeline`: `c` iterations starting at index `i`;
`hTimeline` collects the `pfnAddEntry` calls. `FC_TIMELINE_ACTION_CREATE` is a
constant of `fc.h` and is taken as a parameter. -/
def MSysNet_Timeline_Loop (FC_TIMELINE_ACTION_CREATE : Nat)
    (pMap : List VMM_MAP_NETENTRY) :
    Nat → Nat → List TimelineEntry → List TimelineEntry
  | 0, _, hTimeline => hTimeline
  | c + 1, i, hTimeline =>
    match pMap[i]? with
    | none => MSysNet_Timeline_Loop FC_TIMELINE_ACTION_CREATE pMap c (i + 1) hTimeline
    | some pe =>
      MSysNet_Timeline_Loop FC_TIMELINE_ACTION_CREATE pMap c (i + 1)
        (if pe.ftTime ≠ 0 ∧ pe.wszText ≠ [] then
          hTimeline ++ [⟨pe.ftTime, FC_TIMELINE_ACTION_CREATE, pe.dwPID, pe.vaObj, pe.wszText⟩]
         else hTimeline)

def MSysNet_Timeline (FC_TIMELINE_ACTION_CREATE : Nat) (env : Env) (t : List Event)
    (hTimeline : List TimelineEntry) : List TimelineEntry × List Event :=
  match VmmMap_GetNet env t with
  | (some pObNetMap, t1) =>
    (MSysNet_Timeline_Loop FC_TIMELINE_ACTION_CREATE pObNetMap.pMap pObNetMap.cMap 0 hTimeline,
     Ob_DECREF (some ObRef.netMap) t1)
  | (none, t1) => (hTimeline, t1)

/-! ## Registration -/

/-- The handlers a plugin can register, as function-pointer values. -/
inductive PluginFn where
  | MSysNet_List
  | MSysNet_Read
  | MSysNet_Timeline
deriving DecidableEq

/-- The fields of `pRI->reg_info` the module writes. -/
structure REG_INFO where
  wszPathName : String
  fRootModule : Bool
  sTimelineNameShort : String
  szTimelineFileUTF8 : String
  szTimelineFileJSON : String
deriving DecidableEq

/-- The fields of `pRI->reg_fn` the module writes. -/
structure REG_FN where
  pfnList : Option PluginFn
  pfnRead : Option PluginFn
deriving DecidableEq

/-- The fields of `pRI->reg_fnfc` the module writes. -/
structure REG_FNFC where
  pfnTimeline : Option PluginFn
deriving DecidableEq

/-- The fields of `VMMDLL_PLUGIN_REGINFO` the module reads or writes. -/
structure VMMDLL_PLUGIN_REGINFO where
  magic : Nat
  wVersion : Nat
  tpSystem : Nat
  reg_info : REG_INFO
  reg_fn : REG_FN
  reg_fnfc : REG_FNFC
deriving DecidableEq

/-- Constants of `vmmdll.h` and `vmm.h` that the registration compares with;
the headers are not part of the translated file, so the values are
parameters. -/
structure PluginConsts where
  VMMDLL_PLUGIN_REGINFO_MAGIC : Nat
  VMMDLL_PLUGIN_REGINFO_VERSION : Nat
  VMM_SYSTEM_WINDOWS_X64 : Nat
  VMM_SYSTEM_WINDOWS_X86 : Nat

/-- The registration info after the assignments of `M_SysNet_Initialize`. -/
def M_SysNet_Initialize_Fill (pRI : VMMDLL_PLUGIN_REGINFO) : VMMDLL_PLUGIN_REGINFO :=
  { pRI with
    reg_info :=
      { wszPathName := "\\sys\\net"
        fRootModule := true
        sTimelineNameShort := "Net   "
        szTimelineFileUTF8 := "timeline_net.txt"
        szTimelineFileJSON := "timeline_net.json" }
    reg_fn := { pfnList := some PluginFn.MSysNet_List, pfnRead := some PluginFn.MSysNet_Read }
    reg_fnfc := { pfnTimeline := some PluginFn.MSysNet_Timeline } }

/-- `M_SysNet_Initialize`: `calls` collects the arguments of the calls of
`pRI->pfnPluginManager_Register`. -/
def M_SysNet_Initialize (k : PluginConsts) (pRI : VMMDLL_PLUGIN_REGINFO)
    (calls : List VMMDLL_PLUGIN_REGINFO) :
    VMMDLL_PLUGIN_REGINFO × List VMMDLL_PLUGIN_REGINFO :=
  if pRI.magic ≠ k.VMMDLL_PLUGIN_REGINFO_MAGIC ∨
      pRI.wVersion ≠ k.VMMDLL_PLUGIN_REGINFO_VERSION then (pRI, calls)
  else if pRI.tpSystem ≠ k.VMM_SYSTEM_WINDOWS_X64 ∧
      pRI.tpSystem ≠ k.VMM_SYSTEM_WINDOWS_X86 then (pRI, calls)
  else (M_SysNet_Initialize_Fill pRI, calls ++ [M_SysNet_Initialize_Fill pRI])

/-! ## Reference text of a table file -/

/-- The rendered lines of the records `pMap`, the first one carrying index
`ie`, one after the other in snapshot order. -/
def recordLines (pfnCallback : LineCallback) (env : Env) (cbLineLength : Nat) :
    Nat → List VMM_MAP_NETENTRY → List Char
  | _, [] => []
  | ie, pe :: rest =>
    (pfnCallback env [] cbLineLength ie pe).1 ++
      recordLines pfnCallback env cbLineLength (ie + 1) rest

/-- The fully rendered table file of the spec, "built by concatenating
`render(0..cMap)`": the header line followed by the rendered line of each
record in snapshot order. -/
def renderedFile (pfnCallback : LineCallback) (env : Env) (cbLineLength : Nat)
    (wszHeader : String) (m : VMMOB_MAP_NET) : List Char :=
  Util_snwprintf_u8ln cbLineLength wszHeader.data ++
    recordLines pfnCallback env cbLineLength 0 m.pMap

/-- Line `i` of a table file by index: "line index 0 is the header and index
`i>0` renders record `i-1`". -/
def renderLine (pfnCallback : LineCallback) (env : Env) (cbLineLength : Nat)
    (wszHeader : String) (pMap : List VMM_MAP_NETENTRY) (i : Nat) : List Char :=
  if i = 0 then Util_snwprintf_u8ln cbLineLength wszHeader.data
  else
    match pMap[i - 1]? with
    | none => []
    | some pe => (pfnCallback env [] cbLineLength (i - 1) pe).1

/-- The concatenation of the `c` lines `f i, f (i+1), ...`. -/
def concatLines (f : Nat → List Char) : Nat → Nat → List Char
  | 0, _ => []
  | c + 1, i => f i ++ concatLines f c (i + 1)

/-- A line renderer whose text does not depend on the trace and always has the
line length. -/
def FixedWidth (pfnCallback : LineCallback) : Prop :=
  ∀ env t w ie pe, (pfnCallback env t w ie pe).1 = (pfnCallback env [] w ie pe).1 ∧
    (pfnCallback env t w ie pe).1.length = w

/-! ## Reference accounting -/

/-- From trace `t` to the later trace `t2` every object is given back as often
as it is taken, so the number of outstanding references of every object is
unchanged, and object `o` is taken `n` times and given back `n` times. -/
def RefsBalanced (t t2 : List Event) (o : ObRef) (n : Nat) : Prop :=
  (∀ r, acquired r t2 + released r t = released r t2 + acquired r t) ∧
  acquired o t2 = acquired o t + n ∧ released o t2 = released o t + n

/-- The events of line renderers: balanced, and without any call of
`VmmMap_GetNet`. -/
def CallbackTrace (es : List Event) : Prop :=
  (∀ r, acquired r es = released r es) ∧ acquired ObRef.netMap es = 0 ∧ getNetCalls es = 0

/-- A line renderer that only appends renderer events to the trace. -/
def TraceLocal (cbk : LineCallback) : Prop :=
  ∀ env t w ie pe, ∃ es, (cbk env t w ie pe).2 = t ++ es ∧ CallbackTrace es

/-- The timeline entry `MSysNet_Timeline` emits for a record. -/
def timelineEntryOf (FC_TIMELINE_ACTION_CREATE : Nat) (pe : VMM_MAP_NETENTRY) :
    TimelineEntry :=
  ⟨pe.ftTime, FC_TIMELINE_ACTION_CREATE, pe.dwPID, pe.vaObj, pe.wszText⟩

/-- The records that qualify for the timeline, in snapshot order. -/
def timelineRecords (pMap : List VMM_MAP_NETENTRY) : List VMM_MAP_NETENTRY :=
  pMap.filter fun pe => decide (pe.ftTime ≠ 0 ∧ pe.wszText ≠ [])

/-! ## Reading a printed number back -/

def sampleEntry0 : VMM_MAP_NETENTRY :=
  ⟨4, 132537600000000000, 0xffffe00012345010, "TCPv4  ESTABLISHED  10.0.0.5:49701".data⟩

def sampleEntry1 : VMM_MAP_NETENTRY :=
  ⟨1044, 0, 0xffffe00012346020, "TCPv4  CLOSE_WAIT   10.0.0.5:49702".data⟩

def sampleEntry2 : VMM_MAP_NETENTRY :=
  ⟨776, 132537600010000000, 0xffffe00012347030, []⟩

/-- A map of three records. -/
def sampleMap : VMMOB_MAP_NET := ⟨[sampleEntry0, sampleEntry1, sampleEntry2]⟩

/-- An engine state in which the network map of three records is available
and only PID 4 resolves to a process. -/
def sampleEnv : Env where
  netMap := some sampleMap
  process := fun dwPID =>
    if dwPID = 4 then some ⟨"System".data, "\\SystemRoot\\system32\\ntoskrnl.exe".data⟩
    else none
  fileTime2String := fun _ => "2021-01-01 00:00:00 UTC".data

/-- The same engine state without a network map. -/
def sampleEnvNoMap : Env := { sampleEnv with netMap := none }

def sampleConsts : PluginConsts := ⟨0xc0ffee66, 5, 2, 4⟩

def sampleRegInfo : VMMDLL_PLUGIN_REGINFO :=
  ⟨0xc0ffee66, 5, 2, ⟨"", false, "", "", ""⟩, ⟨none, none⟩, ⟨none⟩⟩

/-! ## Lemmas on traces -/

theorem acquired_append (o : ObRef) (a b : List Event) :
    acquired o (a ++ b) = acquired o a + acquired o b := by
  simp [acquired, List.countP_append]

theorem released_append (o : ObRef) (a b : List Event) :
    released o (a ++ b) = released o a + released o b := by
  simp [released, List.countP_append]

theorem getNetCalls_append (a b : List Event) :
    getNetCalls (a ++ b) = getNetCalls a + getNetCalls b := by
  simp [getNetCalls, List.countP_append]

theorem readerCalls_append (a b : List Event) :
    readerCalls (a ++ b) = readerCalls a + readerCalls b := by
  simp [readerCalls, List.countP_append]

set_option maxRecDepth 100000 in
theorem strlen_szMSYSNET_README : strlen szMSYSNET_README = 546 := by decide

/-! ## Directory listing -/

/-- C1: on the root path with the network map available, `MSysNet_List`
succeeds and adds exactly `readme.txt`, `netstat.txt` of `(cMap + 1) * 128`
bytes and `netstat-v.txt` of `(cMap + 1) * 278` bytes, in this order, whatever
the records are; the sizes depend on the record count only. -/
theorem MSysNet_List_root_available (env : Env) (t : List Event)
    (pFileList : List (String × Nat)) (m : VMMOB_MAP_NET)
    (hm : env.netMap = some m) (hc : m.cMap < 2 ^ 32) :
    (MSysNet_List env t "" pFileList).ret = true ∧
    (MSysNet_List env t "" pFileList).pFileList =
      pFileList ++ [("readme.txt", strlen szMSYSNET_README),
        ("netstat.txt", (m.cMap + 1) * 128), ("netstat-v.txt", (m.cMap + 1) * 278)] := by
  have h1 : (m.cMap + 1) * 128 % 2 ^ 64 = (m.cMap + 1) * 128 := by
    apply Nat.mod_eq_of_lt; omega
  have h2 : (m.cMap + 1) * 278 % 2 ^ 64 = (m.cMap + 1) * 278 := by
    apply Nat.mod_eq_of_lt; omega
  unfold MSysNet_List
  rw [if_neg (by simp)]
  simp only [VmmMap_GetNet, hm, VMMDLL_VfsList_AddFile, UTIL_VFSLINEFIXED_LINECOUNT,
    MSYSNET_LINELENGTH, MSYSNET_LINELENGTH_VERBOSE, h1, h2, List.append_assoc]
  exact ⟨trivial, rfl⟩

set_option maxRecDepth 100000 in
theorem MSysNet_List_root_available_witness :
    sampleEnv.netMap = some sampleMap ∧ sampleMap.cMap < 2 ^ 32 ∧
    (MSysNet_List sampleEnv [] "" []).ret = true ∧
    (MSysNet_List sampleEnv [] "" []).pFileList =
      [("readme.txt", 546), ("netstat.txt", 512), ("netstat-v.txt", 1112)] :=
  ⟨rfl, by decide,
    (MSysNet_List_root_available sampleEnv [] [] sampleMap rfl (by decide)).1,
    by decide⟩

/-- C6: on the root path without a network map, `MSysNet_List` succeeds and
adds exactly one entry, `readme.txt` with the length of the README text (546
bytes); the two table files are left out. -/
theorem MSysNet_List_root_unavailable (env : Env) (t : List Event)
    (pFileList : List (String × Nat)) (hm : env.netMap = none) :
    (MSysNet_List env t "" pFileList).ret = true ∧
    (MSysNet_List env t "" pFileList).pFileList =
      pFileList ++ [("readme.txt", strlen szMSYSNET_README)] ∧
    strlen szMSYSNET_README = szMSYSNET_README.length ∧
    strlen szMSYSNET_README = 546 := by
  refine ⟨?_, ?_, rfl, strlen_szMSYSNET_README⟩ <;>
    simp [MSysNet_List, VmmMap_GetNet, hm, VMMDLL_VfsList_AddFile]

set_option maxRecDepth 100000 in
theorem MSysNet_List_root_unavailable_witness :
    sampleEnvNoMap.netMap = none ∧
    (MSysNet_List sampleEnvNoMap [] "" []).pFileList = [("readme.txt", 546)] :=
  ⟨rfl, by
    have h := (MSysNet_List_root_unavailable sampleEnvNoMap [] [] rfl).2.1
    rw [(MSysNet_List_root_unavailable sampleEnvNoMap [] [] rfl).2.2.2] at h
    exact h⟩

/-- C7: on every non-root path `MSysNet_List` returns `FALSE`, leaves the file
list as it was (not even `readme.txt` is added) and makes no outside call, so
the network map is not acquired. -/
theorem MSysNet_List_nonroot (env : Env) (t : List Event) (wszPath : String)
    (pFileList : List (String × Nat)) (hp : wszPath ≠ "") :
    (MSysNet_List env t wszPath pFileList).ret = false ∧
    (MSysNet_List env t wszPath pFileList).pFileList = pFileList ∧
    (MSysNet_List env t wszPath pFileList).trace = t ∧
    getNetCalls (MSysNet_List env t wszPath pFileList).trace = getNetCalls t := by
  simp [MSysNet_List, hp]

theorem MSysNet_List_nonroot_witness :
    "netstat.txt" ≠ "" ∧ (MSysNet_List sampleEnv [] "netstat.txt" []).ret = false ∧
    (MSysNet_List sampleEnv [] "netstat.txt" []).pFileList = [] ∧
    (MSysNet_List sampleEnv [] "netstat.txt" []).trace = [] :=
  ⟨by decide, (MSysNet_List_nonroot sampleEnv [] "netstat.txt" [] (by decide)).1,
    (MSysNet_List_nonroot sampleEnv [] "netstat.txt" [] (by decide)).2.1,
    (MSysNet_List_nonroot sampleEnv [] "netstat.txt" [] (by decide)).2.2.1⟩

/-! ## Timeline -/

theorem MSysNet_Timeline_Loop_eq (k : Nat) (pMap : List VMM_MAP_NETENTRY) :
    ∀ (c i : Nat) (h : List TimelineEntry), i + c = pMap.length →
      MSysNet_Timeline_Loop k pMap c i h =
        h ++ (timelineRecords (pMap.drop i)).map (timelineEntryOf k) := by
  intro c
  induction c with
  | zero =>
    intro i h hi
    have : pMap.drop i = [] := List.drop_eq_nil_of_le (by omega)
    simp [MSysNet_Timeline_Loop, this, timelineRecords]
  | succ c ih =>
    intro i h hi
    have hlt : i < pMap.length := by omega
    have hd : pMap.drop i = pMap[i] :: pMap.drop (i + 1) := List.drop_eq_getElem_cons hlt
    have hg : pMap[i]? = some pMap[i] := List.getElem?_eq_getElem hlt
    rw [MSysNet_Timeline_Loop, hg]
    simp only []
    rw [ih (i + 1) _ (by omega), hd]
    generalize pMap[i] = pe
    generalize pMap.drop (i + 1) = rest
    by_cases hq : pe.ftTime ≠ 0 ∧ pe.wszText ≠ []
    · simp [timelineRecords, List.filter_cons, hq, timelineEntryOf]
    · simp [timelineRecords, List.filter_cons, hq]

/-- C3: with the network map acquired, the `pfnAddEntry` calls of
`MSysNet_Timeline` are, in snapshot order and once each, the records with
non-zero `ftTime` and non-empty `wszText`, each passed as
`(ftTime, FC_TIMELINE_ACTION_CREATE, dwPID, vaObj, wszText)`; the other records
produce no call. -/
theorem MSysNet_Timeline_calls (k : Nat) (env : Env) (t : List Event)
    (hTimeline : List TimelineEntry) (m : VMMOB_MAP_NET) (hm : env.netMap = some m) :
    (MSysNet_Timeline k env t hTimeline).1 =
      hTimeline ++
        (m.pMap.filter fun pe => decide (pe.ftTime ≠ 0 ∧ pe.wszText ≠ [])).map
          fun pe => ⟨pe.ftTime, k, pe.dwPID, pe.vaObj, pe.wszText⟩ := by
  have h := MSysNet_Timeline_Loop_eq k m.pMap m.cMap 0 hTimeline
    (by simp [VMMOB_MAP_NET.cMap])
  simp only [MSysNet_Timeline, VmmMap_GetNet, hm, h, List.drop_zero]
  rfl

theorem MSysNet_Timeline_calls_witness :
    sampleEnv.netMap = some sampleMap ∧
    (MSysNet_Timeline 1 sampleEnv [] []).1 =
      [⟨132537600000000000, 1, 4, 0xffffe00012345010,
        "TCPv4  ESTABLISHED  10.0.0.5:49701".data⟩] :=
  ⟨rfl, by
    rw [MSysNet_Timeline_calls 1 sampleEnv [] [] sampleMap rfl]
    decide⟩

/-! ## Reads that reach no table -/

/-- C4: for every path other than `readme.txt`, `netstat.txt` and
`netstat-v.txt`, with or without a network map, `MSysNet_Read` returns
`VMMDLL_STATUS_FILE_INVALID`, writes no byte to `pb`, leaves `*pcbRead`
untouched and calls neither `Util_VfsReadFile_FromPBYTE` nor
`Util_VfsLineFixed_Read`: its only outside calls are `VmmMap_GetNet` and, when
that succeeded, `Ob_DECREF` on the map. -/
theorem MSysNet_Read_unknown_path (env : Env) (t : List Event) (wszPath : String)
    (cb cbOffset : Nat) (h1 : wszPath ≠ "readme.txt") (h2 : wszPath ≠ "netstat.txt")
    (h3 : wszPath ≠ "netstat-v.txt") :
    (MSysNet_Read env t wszPath cb cbOffset).1 =
      ⟨NTSTATUS.VMMDLL_STATUS_FILE_INVALID, [], none⟩ ∧
    (MSysNet_Read env t wszPath cb cbOffset).2 =
      t ++ (match env.netMap with
            | some _ => [Event.getNet true, Event.decref (some ObRef.netMap)]
            | none => [Event.getNet false]) ∧
    readerCalls (MSysNet_Read env t wszPath cb cbOffset).2 = readerCalls t := by
  cases hm : env.netMap with
  | none =>
    simp [MSysNet_Read, VmmMap_GetNet, hm, h1, readerCalls, List.countP_append,
      List.countP_cons, Event.isReader]
  | some m =>
    simp [MSysNet_Read, VmmMap_GetNet, hm, h1, h2, h3, Ob_DECREF, readerCalls,
      List.countP_append, List.countP_cons, Event.isReader]

theorem MSysNet_Read_unknown_path_witness :
    "netstat.csv" ≠ "readme.txt" ∧ "netstat.csv" ≠ "netstat.txt" ∧
    "netstat.csv" ≠ "netstat-v.txt" ∧
    (MSysNet_Read sampleEnv [] "netstat.csv" 128 0).1 =
      ⟨NTSTATUS.VMMDLL_STATUS_FILE_INVALID, [], none⟩ ∧
    (MSysNet_Read sampleEnv [] "netstat.csv" 128 0).2 =
      [Event.getNet true, Event.decref (some ObRef.netMap)] :=
  ⟨by decide, by decide, by decide,
    (MSysNet_Read_unknown_path sampleEnv [] "netstat.csv" 128 0
      (by decide) (by decide) (by decide)).1,
    (MSysNet_Read_unknown_path sampleEnv [] "netstat.csv" 128 0
      (by decide) (by decide) (by decide)).2.1⟩

/-- C5, as the code behaves: when `VmmMap_GetNet` fails, `MSysNet_Read` on
`netstat.txt` or `netstat-v.txt` returns `VMMDLL_STATUS_FILE_INVALID`, the
status of an unrecognised path, writes no byte to `pb`, leaves `*pcbRead`
untouched and does not call `Util_VfsLineFixed_Read`. -/
theorem MSysNet_Read_table_unavailable (env : Env) (t : List Event) (wszPath : String)
    (cb cbOffset : Nat) (hm : env.netMap = none)
    (hp : wszPath = "netstat.txt" ∨ wszPath = "netstat-v.txt") :
    (MSysNet_Read env t wszPath cb cbOffset).1 =
      ⟨NTSTATUS.VMMDLL_STATUS_FILE_INVALID, [], none⟩ ∧
    (MSysNet_Read env t wszPath cb cbOffset).2 = t ++ [Event.getNet false] := by
  have h1 : wszPath ≠ "readme.txt" := by
    rcases hp with h | h <;> rw [h] <;> decide
  simp [MSysNet_Read, VmmMap_GetNet, hm, h1]

theorem MSysNet_Read_table_unavailable_witness :
    sampleEnvNoMap.netMap = none ∧
    (MSysNet_Read sampleEnvNoMap [] "netstat-v.txt" 278 0).1 =
      ⟨NTSTATUS.VMMDLL_STATUS_FILE_INVALID, [], none⟩ ∧
    (MSysNet_Read sampleEnvNoMap [] "netstat-v.txt" 278 0).2 = [Event.getNet false] :=
  ⟨rfl, MSysNet_Read_table_unavailable sampleEnvNoMap [] "netstat-v.txt" 278 0 rfl
    (Or.inr rfl)⟩

/-- C5 as written fails: without a network map a read of `netstat.txt` comes
back with the failure status `VMMDLL_STATUS_FILE_INVALID`, which is neither
success nor end of file. -/
theorem MSysNet_Read_netstat_without_map_is_invalid :
    sampleEnvNoMap.netMap = none ∧
    (MSysNet_Read sampleEnvNoMap [] "netstat.txt" 128 0).1.nt =
      NTSTATUS.VMMDLL_STATUS_FILE_INVALID ∧
    (MSysNet_Read sampleEnvNoMap [] "netstat.txt" 128 0).1.nt ≠
      NTSTATUS.VMMDLL_STATUS_SUCCESS ∧
    (MSysNet_Read sampleEnvNoMap [] "netstat.txt" 128 0).1.nt ≠
      NTSTATUS.VMMDLL_STATUS_END_OF_FILE := by
  decide

/-! ## Registration -/

/-- C10: `M_SysNet_Initialize` registers exactly when magic and version match
and the system is Windows x64 or x86. Then it sets the path name `\sys\net`,
the root-module flag, the list, read and timeline handlers and the three
timeline names, keeps magic, version and system type, and calls the register
function once, with the filled-in info. Otherwise the info is returned as it
was and the register function is not called. -/
theorem M_SysNet_Initialize_registers (k : PluginConsts) (pRI : VMMDLL_PLUGIN_REGINFO)
    (calls : List VMMDLL_PLUGIN_REGINFO) :
    ((pRI.magic = k.VMMDLL_PLUGIN_REGINFO_MAGIC ∧
        pRI.wVersion = k.VMMDLL_PLUGIN_REGINFO_VERSION ∧
        (pRI.tpSystem = k.VMM_SYSTEM_WINDOWS_X64 ∨ pRI.tpSystem = k.VMM_SYSTEM_WINDOWS_X86)) →
      (M_SysNet_Initialize k pRI calls).1 =
        { magic := pRI.magic, wVersion := pRI.wVersion, tpSystem := pRI.tpSystem,
          reg_info := ⟨"\\sys\\net", true, "Net   ", "timeline_net.txt", "timeline_net.json"⟩,
          reg_fn := ⟨some PluginFn.MSysNet_List, some PluginFn.MSysNet_Read⟩,
          reg_fnfc := ⟨some PluginFn.MSysNet_Timeline⟩ } ∧
      (M_SysNet_Initialize k pRI calls).2 = calls ++ [(M_SysNet_Initialize k pRI calls).1]) ∧
    (¬ (pRI.magic = k.VMMDLL_PLUGIN_REGINFO_MAGIC ∧
        pRI.wVersion = k.VMMDLL_PLUGIN_REGINFO_VERSION ∧
        (pRI.tpSystem = k.VMM_SYSTEM_WINDOWS_X64 ∨ pRI.tpSystem = k.VMM_SYSTEM_WINDOWS_X86)) →
      M_SysNet_Initialize k pRI calls = (pRI, calls)) ∧
    ((M_SysNet_Initialize k pRI calls).2.length = calls.length + 1 ↔
      (pRI.magic = k.VMMDLL_PLUGIN_REGINFO_MAGIC ∧
        pRI.wVersion = k.VMMDLL_PLUGIN_REGINFO_VERSION ∧
        (pRI.tpSystem = k.VMM_SYSTEM_WINDOWS_X64 ∨ pRI.tpSystem = k.VMM_SYSTEM_WINDOWS_X86))) := by
  by_cases hmv : pRI.magic ≠ k.VMMDLL_PLUGIN_REGINFO_MAGIC ∨
      pRI.wVersion ≠ k.VMMDLL_PLUGIN_REGINFO_VERSION
  · have hn : ¬ (pRI.magic = k.VMMDLL_PLUGIN_REGINFO_MAGIC ∧
        pRI.wVersion = k.VMMDLL_PLUGIN_REGINFO_VERSION ∧
        (pRI.tpSystem = k.VMM_SYSTEM_WINDOWS_X64 ∨
          pRI.tpSystem = k.VMM_SYSTEM_WINDOWS_X86)) := by
      rintro ⟨a, b, _⟩
      rcases hmv with h | h
      · exact h a
      · exact h b
    have hr : M_SysNet_Initialize k pRI calls = (pRI, calls) := by
      unfold M_SysNet_Initialize
      rw [if_pos hmv]
    refine ⟨fun h => absurd h hn, fun _ => hr, ?_⟩
    rw [hr]
    constructor
    · intro h
      simp at h
    · intro h
      exact absurd h hn
  · by_cases hs : pRI.tpSystem ≠ k.VMM_SYSTEM_WINDOWS_X64 ∧
        pRI.tpSystem ≠ k.VMM_SYSTEM_WINDOWS_X86
    · have hn : ¬ (pRI.magic = k.VMMDLL_PLUGIN_REGINFO_MAGIC ∧
          pRI.wVersion = k.VMMDLL_PLUGIN_REGINFO_VERSION ∧
          (pRI.tpSystem = k.VMM_SYSTEM_WINDOWS_X64 ∨
            pRI.tpSystem = k.VMM_SYSTEM_WINDOWS_X86)) := by
        rintro ⟨_, _, c⟩
        rcases c with h | h
        · exact hs.1 h
        · exact hs.2 h
      have hr : M_SysNet_Initialize k pRI calls = (pRI, calls) := by
        unfold M_SysNet_Initialize
        rw [if_neg hmv, if_pos hs]
      refine ⟨fun h => absurd h hn, fun _ => hr, ?_⟩
      rw [hr]
      constructor
      · intro h
        simp at h
      · intro h
        exact absurd h hn
    · have hy : pRI.magic = k.VMMDLL_PLUGIN_REGINFO_MAGIC ∧
          pRI.wVersion = k.VMMDLL_PLUGIN_REGINFO_VERSION ∧
          (pRI.tpSystem = k.VMM_SYSTEM_WINDOWS_X64 ∨
            pRI.tpSystem = k.VMM_SYSTEM_WINDOWS_X86) := by
        refine ⟨?_, ?_, ?_⟩
        · by_contra h
          exact hmv (Or.inl h)
        · by_contra h
          exact hmv (Or.inr h)
        · by_contra h
          exact hs ⟨fun a => h (Or.inl a), fun a => h (Or.inr a)⟩
      have hr : M_SysNet_Initialize k pRI calls =
          (M_SysNet_Initialize_Fill pRI, calls ++ [M_SysNet_Initialize_Fill pRI]) := by
        unfold M_SysNet_Initialize
        rw [if_neg hmv, if_neg hs]
      refine ⟨fun _ => ?_, fun h => absurd hy h, ?_⟩
      · rw [hr]
        exact ⟨rfl, rfl⟩
      · rw [hr]
        constructor
        · intro _
          exact hy
        · intro _
          simp

theorem M_SysNet_Initialize_registers_witness :
    (M_SysNet_Initialize sampleConsts sampleRegInfo []).1.reg_info.wszPathName = "\\sys\\net" ∧
    (M_SysNet_Initialize sampleConsts sampleRegInfo []).2 =
      [(M_SysNet_Initialize sampleConsts sampleRegInfo []).1] ∧
    M_SysNet_Initialize sampleConsts { sampleRegInfo with tpSystem := 1 } [] =
      ({ sampleRegInfo with tpSystem := 1 }, []) := by
  have ha := (M_SysNet_Initialize_registers sampleConsts sampleRegInfo []).1
    ⟨rfl, rfl, Or.inl rfl⟩
  have hb := (M_SysNet_Initialize_registers sampleConsts
    { sampleRegInfo with tpSystem := 1 } []).2.1 (by decide)
  refine ⟨?_, ?_, hb⟩
  · rw [ha.1]
  · rw [ha.2]
    rfl

/-! ## Windowed reads of the table files -/

theorem concatLines_add (f : Nat → List Char) (a b : Nat) :
    ∀ i, concatLines f (a + b) i = concatLines f a i ++ concatLines f b (i + a) := by
  induction a with
  | zero => intro i; simp [concatLines]
  | succ a ih =>
    intro i
    have e : a + 1 + b = (a + b) + 1 := by omega
    rw [e, concatLines, concatLines, ih (i + 1), List.append_assoc]
    have e2 : i + 1 + a = i + (a + 1) := by omega
    rw [e2]

theorem concatLines_length (f : Nat → List Char) (w : Nat) (c : Nat) :
    ∀ i, (∀ j, i ≤ j → j < i + c → (f j).length = w) →
      (concatLines f c i).length = c * w := by
  induction c with
  | zero => intro i _; simp [concatLines]
  | succ c ih =>
    intro i h
    rw [concatLines, List.length_append, h i (le_refl i) (by omega),
      ih (i + 1) (fun j h1 h2 => h j (by omega) (by omega))]
    rw [Nat.succ_mul]; omega

theorem concatLines_nil (f : Nat → List Char) (c : Nat) :
    ∀ i, (∀ j, i ≤ j → f j = []) → concatLines f c i = [] := by
  induction c with
  | zero => intro i _; rfl
  | succ c ih =>
    intro i h
    rw [concatLines, h i (le_refl i), ih (i + 1) (fun j hj => h j (by omega))]
    rfl

theorem Util_snwprintf_u8ln_length (w : Nat) (text : List Char) :
    (Util_snwprintf_u8ln w text).length = w := by
  simp [Util_snwprintf_u8ln]

theorem MSysNet_ReadLine_Callback_fixedWidth : FixedWidth MSysNet_ReadLine_Callback := by
  intro env t w ie pe
  exact ⟨rfl, Util_snwprintf_u8ln_length _ _⟩

theorem MSysNet_ReadLineVerbose_Callback_fixedWidth :
    FixedWidth MSysNet_ReadLineVerbose_Callback := by
  intro env t w ie pe
  exact ⟨rfl, Util_snwprintf_u8ln_length _ _⟩

theorem renderLine_length (cbk : LineCallback) (hc : FixedWidth cbk) (env : Env) (w : Nat)
    (hdr : String) (pMap : List VMM_MAP_NETENTRY) (j : Nat) (hj : j ≤ pMap.length) :
    (renderLine cbk env w hdr pMap j).length = w := by
  unfold renderLine
  by_cases h0 : j = 0
  · rw [if_pos h0]; exact Util_snwprintf_u8ln_length _ _
  · rw [if_neg h0]
    have hlt : j - 1 < pMap.length := by omega
    rw [List.getElem?_eq_getElem hlt]
    exact (hc env [] w (j - 1) pMap[j - 1]).2

theorem renderLine_beyond (cbk : LineCallback) (env : Env) (w : Nat)
    (hdr : String) (pMap : List VMM_MAP_NETENTRY) (j : Nat) (hj : pMap.length < j) :
    renderLine cbk env w hdr pMap j = [] := by
  unfold renderLine
  have h0 : j ≠ 0 := by omega
  rw [if_neg h0, List.getElem?_eq_none (by omega)]

theorem Util_VfsLineFixed_RenderLines_text (cbk : LineCallback) (hc : FixedWidth cbk)
    (env : Env) (w : Nat) (hdr : String) (pMap : List VMM_MAP_NETENTRY) :
    ∀ (c i : Nat) (t : List Event),
      (Util_VfsLineFixed_RenderLines cbk env w hdr pMap c i t).1 =
        concatLines (renderLine cbk env w hdr pMap) c i := by
  intro c
  induction c with
  | zero => intro i t; rfl
  | succ c ih =>
    intro i t
    rw [Util_VfsLineFixed_RenderLines, concatLines]
    by_cases h0 : i = 0
    · subst h0
      simp only [if_true, ih]
      rfl
    · rw [if_neg h0]
      by_cases hlt : i - 1 < pMap.length
      · rw [List.getElem?_eq_getElem hlt]
        simp only [ih]
        have : renderLine cbk env w hdr pMap i = (cbk env t w (i - 1) pMap[i - 1]).1 := by
          unfold renderLine
          rw [if_neg h0, List.getElem?_eq_getElem hlt]
          exact ((hc env t w (i - 1) pMap[i - 1]).1).symm
        rw [this]
      · rw [List.getElem?_eq_none (by omega)]
        have h1 : renderLine cbk env w hdr pMap i = [] :=
          renderLine_beyond cbk env w hdr pMap i (by omega)
        have h2 : concatLines (renderLine cbk env w hdr pMap) c (i + 1) = [] :=
          concatLines_nil _ c (i + 1)
            (fun j hj => renderLine_beyond cbk env w hdr pMap j (by omega))
        rw [h1, h2]
        rfl


theorem concatLines_recordLines (cbk : LineCallback) (env : Env) (w : Nat) (hdr : String)
    (pMap : List VMM_MAP_NETENTRY) :
    ∀ (rest pre : List VMM_MAP_NETENTRY), pMap = pre ++ rest →
      concatLines (renderLine cbk env w hdr pMap) rest.length (pre.length + 1) =
        recordLines cbk env w pre.length rest := by
  intro rest
  induction rest with
  | nil => intro pre _; rfl
  | cons pe rest ih =>
    intro pre hp
    have hl : renderLine cbk env w hdr pMap (pre.length + 1) = (cbk env [] w pre.length pe).1 := by
      unfold renderLine
      rw [if_neg (by omega)]
      have : pMap[pre.length + 1 - 1]? = some pe := by
        rw [hp, Nat.add_sub_cancel, List.getElem?_append_right (le_refl _)]
        simp
      rw [this]
      rfl
    have hi := ih (pre ++ [pe]) (by rw [hp]; simp)
    simp only [List.length_append, List.length_singleton] at hi
    rw [List.length_cons, concatLines, recordLines, hl, hi]

theorem concatLines_renderedFile (cbk : LineCallback) (env : Env) (w : Nat) (hdr : String)
    (m : VMMOB_MAP_NET) :
    concatLines (renderLine cbk env w hdr m.pMap) (m.cMap + 1) 0 =
      renderedFile cbk env w hdr m := by
  have h := concatLines_recordLines cbk env w hdr m.pMap m.pMap [] rfl
  rw [concatLines, renderedFile]
  simp only [List.length_nil, Nat.zero_add] at h
  rw [VMMOB_MAP_NET.cMap, h]
  rfl

theorem ceil_lines_cover (s len w : Nat) (hw : 0 < w) :
    s + len ≤ (s + len + w - 1) / w * w := by
  have h := Nat.div_add_mod (s + len + w - 1) w
  have hm := Nat.mod_lt (s + len + w - 1) hw
  rw [Nat.mul_comm] at h
  omega

theorem ceil_lines_fit (s len w k : Nat) (hw : 0 < w) (h : s + len ≤ k * w) :
    (s + len + w - 1) / w ≤ k := by
  have h1 : (s + len + w - 1) / w < k + 1 := by
    rw [Nat.div_lt_iff_lt_mul hw, Nat.add_mul]
    omega
  omega

theorem window_slice (f : Nat → List Char) (w N : Nat) (hw : 0 < w)
    (hf : ∀ j, j < N → (f j).length = w) (off len : Nat)
    (hoff : off < N * w) (hlen : len ≤ N * w - off) :
    ((concatLines f ((off % w + len + w - 1) / w) (off / w)).drop (off % w)).take len =
      ((concatLines f N 0).drop off).take len := by
  have hdm := Nat.div_add_mod off w
  have hs := Nat.mod_lt off hw
  generalize hn : (off % w + len + w - 1) / w = n
  generalize ha : off / w = a at hdm
  generalize hsd : off % w = s at hdm hs hn
  rw [Nat.mul_comm] at hdm
  have hcov : s + len ≤ n * w := by
    rw [← hn]; exact ceil_lines_cover s len w hw
  have haN : a < N := by
    by_contra hc
    have : N * w ≤ a * w := Nat.mul_le_mul_right w (by omega)
    omega
  have hfit : n ≤ N - a := by
    rw [← hn]
    apply ceil_lines_fit s len w (N - a) hw
    rw [Nat.sub_mul]
    omega
  have hN : N = a + (n + (N - a - n)) := by omega
  have hA : (concatLines f a 0).length = a * w :=
    concatLines_length f w a 0 (fun j _ h2 => hf j (by omega))
  have hB : (concatLines f n a).length = n * w :=
    concatLines_length f w n a (fun j _ h2 => hf j (by omega))
  have hsplit : concatLines f N 0 =
      concatLines f a 0 ++ (concatLines f n a ++ concatLines f (N - a - n) (a + n)) := by
    conv_lhs => rw [hN]
    rw [concatLines_add, concatLines_add, Nat.zero_add]
  rw [hsplit, ← hdm, ← hA, List.drop_append,
    List.drop_append_of_le_length (by rw [hB]; omega),
    List.take_append_of_le_length (by rw [List.length_drop, hB]; omega)]

theorem renderedFile_length (cbk : LineCallback) (hc : FixedWidth cbk) (env : Env) (w : Nat)
    (hdr : String) (m : VMMOB_MAP_NET) :
    (renderedFile cbk env w hdr m).length = (m.cMap + 1) * w := by
  rw [← concatLines_renderedFile]
  exact concatLines_length _ w (m.cMap + 1) 0
    (fun j _ h2 => renderLine_length cbk hc env w hdr m.pMap j (by
      have : m.cMap = m.pMap.length := rfl
      omega))

theorem Util_VfsLineFixed_Read_bytes (cbk : LineCallback) (hc : FixedWidth cbk) (env : Env)
    (w : Nat) (hw : 0 < w) (hdr : String) (m : VMMOB_MAP_NET) (cb off : Nat)
    (t : List Event) :
    (Util_VfsLineFixed_Read cbk env w hdr m.pMap m.cMap cb off t).1.pb =
      ((renderedFile cbk env w hdr m).drop off).take cb := by
  have hlen := renderedFile_length cbk hc env w hdr m
  unfold Util_VfsLineFixed_Read UTIL_VFSLINEFIXED_LINECOUNT
  by_cases hEnd : (m.cMap + 1) * w ≤ off
  · rw [if_pos hEnd, List.drop_eq_nil_of_le (by omega), List.take_nil]
  · rw [if_neg hEnd]
    simp only [Util_VfsLineFixed_RenderLines_text cbk hc]
    rw [window_slice _ w (m.cMap + 1) hw
      (fun j hj => renderLine_length cbk hc env w hdr m.pMap j (by
        have : m.cMap = m.pMap.length := rfl
        omega)) off _ (by omega) (Nat.min_le_right _ _),
      concatLines_renderedFile, List.take_eq_take, List.length_drop, hlen]
    omega

/-- C2: with the network map acquired, `MSysNet_Read` on `netstat.txt` (line
length 128) and on `netstat-v.txt` (line length 278) writes to `pb` exactly
the bytes `[cbOffset, cbOffset + cb)` of the fully rendered file, which is the
header line followed by the rendered line of each record in snapshot order;
a range that reaches past the end of the file is cut at the end. -/
theorem MSysNet_Read_windowed (env : Env) (t : List Event) (m : VMMOB_MAP_NET)
    (cb cbOffset : Nat) (hm : env.netMap = some m) :
    (MSysNet_Read env t "netstat.txt" cb cbOffset).1.pb =
      ((renderedFile MSysNet_ReadLine_Callback env 128 MSYSNET_LINEHEADER m).drop
        cbOffset).take cb ∧
    (MSysNet_Read env t "netstat-v.txt" cb cbOffset).1.pb =
      ((renderedFile MSysNet_ReadLineVerbose_Callback env 278 MSYSNET_LINEHEADER_VERBOSE
        m).drop cbOffset).take cb := by
  constructor
  · have h := Util_VfsLineFixed_Read_bytes MSysNet_ReadLine_Callback
      MSysNet_ReadLine_Callback_fixedWidth env 128 (by decide) MSYSNET_LINEHEADER m cb cbOffset
      (t ++ [Event.getNet true])
    rw [← h]
    simp [MSysNet_Read, VmmMap_GetNet, hm, MSYSNET_LINELENGTH]
  · have h := Util_VfsLineFixed_Read_bytes MSysNet_ReadLineVerbose_Callback
      MSysNet_ReadLineVerbose_Callback_fixedWidth env 278 (by decide)
      MSYSNET_LINEHEADER_VERBOSE m cb cbOffset (t ++ [Event.getNet true])
    rw [← h]
    simp [MSysNet_Read, VmmMap_GetNet, hm, MSYSNET_LINELENGTH_VERBOSE]

set_option maxRecDepth 100000 in
theorem MSysNet_Read_windowed_witness :
    sampleEnv.netMap = some sampleMap ∧
    (MSysNet_Read sampleEnv [] "netstat.txt" 128 130).1.pb =
      ((renderedFile MSysNet_ReadLine_Callback sampleEnv 128 MSYSNET_LINEHEADER
        sampleMap).drop 130).take 128 ∧
    (MSysNet_Read sampleEnv [] "netstat.txt" 128 130).1.pb =
      (((MSysNet_ReadLine_Callback sampleEnv [] 128 0 sampleEntry0).1 ++
        (MSysNet_ReadLine_Callback sampleEnv [] 128 1 sampleEntry1).1).drop 2).take 128 ∧
    (MSysNet_Read sampleEnv [] "netstat.txt" 128 130).1.pb =
      ("00      4 TCPv4  ESTABLISHED  10.0.0.5:49701 System" ++
       "                                                                           00").data :=
  ⟨rfl, (MSysNet_Read_windowed sampleEnv [] sampleMap 128 130 rfl).1, by decide, by decide⟩

/-! ## Line renderer -/

theorem CallbackTrace_nil : CallbackTrace [] := by
  simp [CallbackTrace, acquired, released, getNetCalls]

theorem CallbackTrace_append (a b : List Event) (ha : CallbackTrace a) (hb : CallbackTrace b) :
    CallbackTrace (a ++ b) := by
  obtain ⟨a1, a2, a3⟩ := ha
  obtain ⟨b1, b2, b3⟩ := hb
  refine ⟨fun r => ?_, ?_, ?_⟩
  · rw [acquired_append, released_append, a1 r, b1 r]
  · rw [acquired_append, a2, b2]
  · rw [getNetCalls_append, a3, b3]

theorem processGet_decref_trace (env : Env) (dwPID : Nat) :
    CallbackTrace [Event.processGet dwPID (env.process dwPID).isSome,
      Event.decref ((env.process dwPID).map fun _ => ObRef.process dwPID)] := by
  cases h : env.process dwPID with
  | none =>
    simp [CallbackTrace, acquired, released, getNetCalls, List.countP_cons,
      Event.acquires, Event.releases, Event.isGetNet]
  | some p =>
    refine ⟨fun r => ?_, ?_, ?_⟩ <;>
      simp [acquired, released, getNetCalls, List.countP_cons,
        Event.acquires, Event.releases, Event.isGetNet]

theorem MSysNet_ReadLine_Callback_traceLocal : TraceLocal MSysNet_ReadLine_Callback := by
  intro env t w ie pe
  refine ⟨_, ?_, processGet_decref_trace env pe.dwPID⟩
  simp [MSysNet_ReadLine_Callback, VmmProcessGet, Ob_DECREF]

theorem MSysNet_ReadLineVerbose_Callback_traceLocal :
    TraceLocal MSysNet_ReadLineVerbose_Callback := by
  intro env t w ie pe
  refine ⟨_, ?_, processGet_decref_trace env pe.dwPID⟩
  simp [MSysNet_ReadLineVerbose_Callback, VmmProcessGet, Ob_DECREF]

theorem Util_VfsLineFixed_RenderLines_trace (cbk : LineCallback) (hc : TraceLocal cbk)
    (env : Env) (w : Nat) (hdr : String) (pMap : List VMM_MAP_NETENTRY) :
    ∀ (c i : Nat) (t : List Event), ∃ es,
      (Util_VfsLineFixed_RenderLines cbk env w hdr pMap c i t).2 = t ++ es ∧
        CallbackTrace es := by
  intro c
  induction c with
  | zero => intro i t; exact ⟨[], by simp [Util_VfsLineFixed_RenderLines], CallbackTrace_nil⟩
  | succ c ih =>
    intro i t
    rw [Util_VfsLineFixed_RenderLines]
    by_cases h0 : i = 0
    · rw [if_pos h0]
      exact ih 1 t
    · rw [if_neg h0]
      cases hg : pMap[i - 1]? with
      | none => exact ⟨[], by simp, CallbackTrace_nil⟩
      | some pe =>
        obtain ⟨e1, h1, c1⟩ := hc env t w (i - 1) pe
        obtain ⟨e2, h2, c2⟩ := ih (i + 1) (cbk env t w (i - 1) pe).2
        refine ⟨e1 ++ e2, ?_, CallbackTrace_append _ _ c1 c2⟩
        simp only []
        rw [h2, h1, List.append_assoc]

theorem Util_VfsLineFixed_Read_trace (cbk : LineCallback) (hc : TraceLocal cbk)
    (env : Env) (w : Nat) (hdr : String) (pMap : List VMM_MAP_NETENTRY)
    (cMap cb off : Nat) (t : List Event) : ∃ es,
      (Util_VfsLineFixed_Read cbk env w hdr pMap cMap cb off t).2 =
        t ++ Event.lineFixedRead w :: es ∧ CallbackTrace es := by
  unfold Util_VfsLineFixed_Read
  by_cases hEnd : UTIL_VFSLINEFIXED_LINECOUNT cMap * w ≤ off
  · rw [if_pos hEnd]
    exact ⟨[], rfl, CallbackTrace_nil⟩
  · rw [if_neg hEnd]
    obtain ⟨es, h, c⟩ := Util_VfsLineFixed_RenderLines_trace cbk hc env w hdr pMap
      ((off % w + min cb (UTIL_VFSLINEFIXED_LINECOUNT cMap * w - off) + w - 1) / w)
      (off / w) (t ++ [Event.lineFixedRead w])
    refine ⟨es, ?_, c⟩
    simp only []
    rw [h, List.append_assoc]
    rfl

theorem RefsBalanced_append (t es : List Event) (o : ObRef) (n : Nat)
    (hb : ∀ r, acquired r es = released r es) (ho : acquired o es = n) :
    RefsBalanced t (t ++ es) o n := by
  refine ⟨fun r => ?_, ?_, ?_⟩
  · rw [acquired_append, released_append, hb r]; omega
  · rw [acquired_append, ho]
  · rw [released_append, ← hb o, ho]

theorem MSysNet_Read_trace (env : Env) (t : List Event) (wszPath : String)
    (cb cbOffset : Nat) : ∃ es,
      (MSysNet_Read env t wszPath cb cbOffset).2 = t ++ es ∧
      (∀ r, acquired r es = released r es) ∧
      acquired ObRef.netMap es =
        (if wszPath ≠ "readme.txt" ∧ env.netMap.isSome = true then 1 else 0) ∧
      getNetCalls es = (if wszPath = "readme.txt" then 0 else 1) := by
  by_cases hr : wszPath = "readme.txt"
  · refine ⟨[Event.readFile (strlen szMSYSNET_README)], ?_, ?_, ?_, ?_⟩
    · unfold MSysNet_Read Util_VfsReadFile_FromPBYTE
      rw [if_pos hr]
      split <;> rfl
    · intro r
      simp [acquired, released, List.countP_cons, Event.acquires, Event.releases]
    · simp [acquired, List.countP_cons, Event.acquires, hr]
    · simp [getNetCalls, List.countP_cons, Event.isGetNet, hr]
  · cases hm : env.netMap with
    | none =>
      refine ⟨[Event.getNet false], ?_, ?_, ?_, ?_⟩
      · simp [MSysNet_Read, VmmMap_GetNet, hm, hr]
      · intro r
        simp [acquired, released, List.countP_cons, Event.acquires, Event.releases]
      · simp [acquired, List.countP_cons, Event.acquires]
      · simp [getNetCalls, List.countP_cons, Event.isGetNet, hr]
    | some m =>
      have hshape : ∃ es, (MSysNet_Read env t wszPath cb cbOffset).2 =
          t ++ (Event.getNet true :: (es ++ [Event.decref (some ObRef.netMap)])) ∧
          (∀ r, acquired r es = released r es) ∧ acquired ObRef.netMap es = 0 ∧
          getNetCalls es = 0 := by
        by_cases h1 : wszPath = "netstat.txt"
        · obtain ⟨es, he, hc⟩ := Util_VfsLineFixed_Read_trace MSysNet_ReadLine_Callback
            MSysNet_ReadLine_Callback_traceLocal env MSYSNET_LINELENGTH MSYSNET_LINEHEADER
            m.pMap m.cMap cb cbOffset (t ++ [Event.getNet true])
          have hc2 := CallbackTrace_append [Event.lineFixedRead MSYSNET_LINELENGTH] es
            (by simp [CallbackTrace, acquired, released, getNetCalls, List.countP_cons,
              Event.acquires, Event.releases, Event.isGetNet]) hc
          refine ⟨Event.lineFixedRead MSYSNET_LINELENGTH :: es, ?_, hc2⟩
          subst h1
          simp [MSysNet_Read, VmmMap_GetNet, hm, Ob_DECREF, he]
        · by_cases h2 : wszPath = "netstat-v.txt"
          · obtain ⟨es, he, hc⟩ := Util_VfsLineFixed_Read_trace
              MSysNet_ReadLineVerbose_Callback MSysNet_ReadLineVerbose_Callback_traceLocal env
              MSYSNET_LINELENGTH_VERBOSE MSYSNET_LINEHEADER_VERBOSE
              m.pMap m.cMap cb cbOffset (t ++ [Event.getNet true])
            have hc2 := CallbackTrace_append [Event.lineFixedRead MSYSNET_LINELENGTH_VERBOSE]
              es (by simp [CallbackTrace, acquired, released, getNetCalls, List.countP_cons,
                Event.acquires, Event.releases, Event.isGetNet]) hc
            refine ⟨Event.lineFixedRead MSYSNET_LINELENGTH_VERBOSE :: es, ?_, hc2⟩
            subst h2
            simp [MSysNet_Read, VmmMap_GetNet, hm, Ob_DECREF, he]
          · refine ⟨[], ?_, CallbackTrace_nil⟩
            simp [MSysNet_Read, VmmMap_GetNet, hm, Ob_DECREF, hr, h1, h2]
      obtain ⟨es, he, hb, hn, hg⟩ := hshape
      refine ⟨_, he, ?_, ?_, ?_⟩
      · intro r
        have e1 : acquired r (Event.getNet true :: (es ++ [Event.decref (some ObRef.netMap)])) =
            (if r = ObRef.netMap then 1 else 0) + acquired r es := by
          simp [acquired, List.countP_cons, List.countP_append, Event.acquires]
          omega
        have e2 : released r (Event.getNet true :: (es ++ [Event.decref (some ObRef.netMap)])) =
            released r es + (if r = ObRef.netMap then 1 else 0) := by
          simp [released, List.countP_cons, List.countP_append, Event.releases]
        rw [e1, e2, hb r]; omega
      · have e1 : acquired ObRef.netMap
            (Event.getNet true :: (es ++ [Event.decref (some ObRef.netMap)])) =
            1 + acquired ObRef.netMap es := by
          simp [acquired, List.countP_cons, List.countP_append, Event.acquires]
          omega
        rw [e1, hn]
        simp [hr]
      · have e1 : getNetCalls
            (Event.getNet true :: (es ++ [Event.decref (some ObRef.netMap)])) =
            1 + getNetCalls es := by
          simp [getNetCalls, List.countP_cons, List.countP_append, Event.isGetNet]
          omega
        rw [e1, hg]
        simp [hr]

theorem getNet_decref_counts (ok : Bool) :
    (∀ r, acquired r (Event.getNet ok :: (if ok then [Event.decref (some ObRef.netMap)] else []))
      = released r (Event.getNet ok :: (if ok then [Event.decref (some ObRef.netMap)] else []))) ∧
    acquired ObRef.netMap
      (Event.getNet ok :: (if ok then [Event.decref (some ObRef.netMap)] else [])) =
      (if ok = true then 1 else 0) ∧
    getNetCalls (Event.getNet ok :: (if ok then [Event.decref (some ObRef.netMap)] else [])) = 1 := by
  cases ok <;>
    simp [acquired, released, getNetCalls, List.countP_cons, Event.acquires, Event.releases,
      Event.isGetNet]

theorem MSysNet_List_trace (env : Env) (t : List Event) (wszPath : String)
    (pFileList : List (String × Nat)) :
    (MSysNet_List env t wszPath pFileList).trace =
      t ++ (if wszPath ≠ "" then []
            else Event.getNet env.netMap.isSome ::
              (if env.netMap.isSome then [Event.decref (some ObRef.netMap)] else [])) := by
  by_cases hp : wszPath ≠ ""
  · simp [MSysNet_List, hp]
  · cases hm : env.netMap <;> simp [MSysNet_List, hp, VmmMap_GetNet, hm, Ob_DECREF]

theorem MSysNet_Timeline_trace (k : Nat) (env : Env) (t : List Event)
    (hTimeline : List TimelineEntry) :
    (MSysNet_Timeline k env t hTimeline).2 =
      t ++ Event.getNet env.netMap.isSome ::
        (if env.netMap.isSome then [Event.decref (some ObRef.netMap)] else []) := by
  cases hm : env.netMap <;> simp [MSysNet_Timeline, VmmMap_GetNet, hm, Ob_DECREF]

theorem callback_process_counts (env : Env) (dwPID : Nat) :
    acquired (ObRef.process dwPID)
      [Event.processGet dwPID (env.process dwPID).isSome,
        Event.decref ((env.process dwPID).map fun _ => ObRef.process dwPID)] =
      (if (env.process dwPID).isSome = true then 1 else 0) := by
  cases h : env.process dwPID <;> simp [acquired, List.countP_cons, Event.acquires]

/-- C9: reference balance. Over a call of `MSysNet_Read`, `MSysNet_List` or
`MSysNet_Timeline` every object is given back as often as it is taken, so the
outstanding references are the same after the call as before; the network map
is taken once and given back once when `VmmMap_GetNet` was called and
succeeded, and neither taken nor given back otherwise. `VmmMap_GetNet` is not
called for the `readme.txt` read nor for a non-root listing. Each call of one
of the two line renderers takes the process reference once and gives it back
once when `VmmProcessGet` found a process, and takes and gives back nothing
when it did not. -/
theorem MSysNet_reference_balance (env : Env) (t : List Event) (wszPath : String)
    (cb cbOffset : Nat) (pFileList : List (String × Nat)) (k : Nat)
    (hTimeline : List TimelineEntry) (cbLineLength ie : Nat) (pe : VMM_MAP_NETENTRY) :
    (RefsBalanced t (MSysNet_Read env t wszPath cb cbOffset).2 ObRef.netMap
        (if wszPath ≠ "readme.txt" ∧ env.netMap.isSome = true then 1 else 0) ∧
      getNetCalls (MSysNet_Read env t wszPath cb cbOffset).2 =
        getNetCalls t + (if wszPath = "readme.txt" then 0 else 1)) ∧
    (RefsBalanced t (MSysNet_List env t wszPath pFileList).trace ObRef.netMap
        (if wszPath = "" ∧ env.netMap.isSome = true then 1 else 0) ∧
      getNetCalls (MSysNet_List env t wszPath pFileList).trace =
        getNetCalls t + (if wszPath = "" then 1 else 0)) ∧
    (RefsBalanced t (MSysNet_Timeline k env t hTimeline).2 ObRef.netMap
        (if env.netMap.isSome = true then 1 else 0) ∧
      getNetCalls (MSysNet_Timeline k env t hTimeline).2 = getNetCalls t + 1) ∧
    RefsBalanced t (MSysNet_ReadLine_Callback env t cbLineLength ie pe).2
      (ObRef.process pe.dwPID) (if (env.process pe.dwPID).isSome = true then 1 else 0) ∧
    RefsBalanced t (MSysNet_ReadLineVerbose_Callback env t cbLineLength ie pe).2
      (ObRef.process pe.dwPID) (if (env.process pe.dwPID).isSome = true then 1 else 0) := by
  refine ⟨?_, ?_, ?_, ?_, ?_⟩
  · obtain ⟨es, he, hb, hn, hg⟩ := MSysNet_Read_trace env t wszPath cb cbOffset
    rw [he]
    exact ⟨RefsBalanced_append t es _ _ hb hn, by rw [getNetCalls_append, hg]⟩
  · rw [MSysNet_List_trace]
    by_cases hp : wszPath ≠ ""
    · rw [if_pos hp]
      have hp2 : ¬ (wszPath = "" ∧ env.netMap.isSome = true) := fun h => hp h.1
      rw [if_neg hp2, if_neg hp]
      exact ⟨RefsBalanced_append t [] _ _ (fun r => rfl) rfl, by simp⟩
    · have hp1 : wszPath = "" := not_not.mp hp
      rw [if_neg hp]
      obtain ⟨h1, h2, h3⟩ := getNet_decref_counts env.netMap.isSome
      refine ⟨RefsBalanced_append t _ _ _ h1 ?_, ?_⟩
      · rw [h2]; simp [hp1]
      · rw [getNetCalls_append, h3]; simp [hp1]
  · rw [MSysNet_Timeline_trace]
    obtain ⟨h1, h2, h3⟩ := getNet_decref_counts env.netMap.isSome
    exact ⟨RefsBalanced_append t _ _ _ h1 h2, by rw [getNetCalls_append, h3]⟩
  · have he : (MSysNet_ReadLine_Callback env t cbLineLength ie pe).2 =
        t ++ [Event.processGet pe.dwPID (env.process pe.dwPID).isSome,
          Event.decref ((env.process pe.dwPID).map fun _ => ObRef.process pe.dwPID)] := by
      simp [MSysNet_ReadLine_Callback, VmmProcessGet, Ob_DECREF]
    rw [he]
    exact RefsBalanced_append t _ _ _ (processGet_decref_trace env pe.dwPID).1
      (callback_process_counts env pe.dwPID)
  · have he : (MSysNet_ReadLineVerbose_Callback env t cbLineLength ie pe).2 =
        t ++ [Event.processGet pe.dwPID (env.process pe.dwPID).isSome,
          Event.decref ((env.process pe.dwPID).map fun _ => ObRef.process pe.dwPID)] := by
      simp [MSysNet_ReadLineVerbose_Callback, VmmProcessGet, Ob_DECREF]
    rw [he]
    exact RefsBalanced_append t _ _ _ (processGet_decref_trace env pe.dwPID).1
      (callback_process_counts env pe.dwPID)

end MSysNet
